import Mathlib

/-!
Shallow embedding of the polars-benchmark measurement-and-comparison harness.

Sources embedded:
  - python_benchmarks/benchmarks.py  (BenchmarkResult, measurement wrapper,
    PythonPolarsBenchmark.run_all_benchmarks, save_results)
  - scripts/compare_results.py       (load/compare, rust_lookup, totals)
  - scripts/generate_report.py       (comparisons list, report totals, main)

Real time and resident memory readings are inputs to the embedded functions;
Python float arithmetic is modelled by exact rationals (ℚ).
-/

namespace PolarsBench

/-- Structure `BenchmarkResult` from benchmarks.py: one operation's measured outcome.
`rows_processed` is `Optional[int]` in the source, hence `Option Int` here. -/
structure BenchmarkResult where
  operation : String
  duration_ms : Int
  memory_mb : Int
  rows_processed : Option Int
deriving DecidableEq, Repr

/-- JSON values as produced by `json.dump` / consumed by `json.load` for this
program: nulls, integers, strings, arrays and objects cover every value the
persistence layer writes. -/
inductive Json where
  | null : Json
  | int : Int → Json
  | str : String → Json
  | arr : List Json → Json
  | obj : List (String × Json) → Json

/-- Field access on a parsed JSON object, as `data["key"]` /
`data.get("key")` on the dict returned by `json.load`. -/
def Json.get (j : Json) (key : String) : Option Json :=
  match j with
  | .obj kvs => kvs.lookup key
  | _ => none

/-- A Python `Optional[int]` as serialized by `json.dump`: `None` becomes
JSON `null`, an int stays an int. -/
def optIntJson : Option Int → Json
  | none => Json.null
  | some n => Json.int n

/-- Embedding of `BenchmarkResult.to_dict` (benchmarks.py lines 25-31): the four fields,
with an absent `rows_processed` serialized as `null`, never as `0`. -/
def BenchmarkResult.toDict (r : BenchmarkResult) : Json :=
  Json.obj [("operation", Json.str r.operation),
            ("duration_ms", Json.int r.duration_ms),
            ("memory_mb", Json.int r.memory_mb),
            ("rows_processed", optIntJson r.rows_processed)]

/-- The `system_info` snapshot built in `save_results`. `psutil.cpu_count()`
may return `None`, hence `Option Int`. -/
structure SystemInfo where
  os : String
  cpu_count : Option Int
  total_memory_gb : Int
deriving DecidableEq, Repr

/-- The `dataset_info` descriptor built in `save_results`; `rows_limit` is
the optional `limit_rows` argument. -/
structure DatasetInfo where
  source : String
  rows_limit : Option Int
deriving DecidableEq, Repr

/-- The full persisted document (`benchmark_suite` in `save_results`):
timestamp, ordered results, system and dataset metadata. -/
structure BenchmarkSuiteData where
  timestamp : String
  results : List BenchmarkResult
  system_info : SystemInfo
  dataset_info : DatasetInfo
deriving DecidableEq, Repr

def SystemInfo.toJson (s : SystemInfo) : Json :=
  Json.obj [("os", Json.str s.os),
            ("cpu_count", optIntJson s.cpu_count),
            ("total_memory_gb", Json.int s.total_memory_gb)]

def DatasetInfo.toJson (d : DatasetInfo) : Json :=
  Json.obj [("source", Json.str d.source),
            ("rows_limit", optIntJson d.rows_limit)]

/-- Embedding of `save_results` (benchmarks.py lines 249-271): the JSON document written
to disk (`json.dump(benchmark_suite, f)`); directory creation and the actual
file write are I/O around this pure construction. -/
def saveResultsJson (d : BenchmarkSuiteData) : Json :=
  Json.obj [("timestamp", Json.str d.timestamp),
            ("results", Json.arr (d.results.map BenchmarkResult.toDict)),
            ("system_info", d.system_info.toJson),
            ("dataset_info", d.dataset_info.toJson)]

def Json.asStr : Json → Option String
  | .str s => some s
  | _ => none

def Json.asInt : Json → Option Int
  | .int n => some n
  | _ => none

/-- Reading an optional int field back: JSON `null` means absent (`None`),
an int is present; anything else is a shape error. -/
def Json.asOptInt : Json → Option (Option Int)
  | .null => some none
  | .int n => some (some n)
  | _ => none

def Json.asArr : Json → Option (List Json)
  | .arr l => some l
  | _ => none

/-- The read path for one result record: consumers of `load_results` access
`r["operation"]`, `r["duration_ms"]`, `r["memory_mb"]`, and
`r.get("rows_processed")` on the dict parsed by `json.load`. -/
def parseBenchmarkResult (j : Json) : Option BenchmarkResult := do
  let op ← (← j.get "operation").asStr
  let dur ← (← j.get "duration_ms").asInt
  let mem ← (← j.get "memory_mb").asInt
  let rows ← (← j.get "rows_processed").asOptInt
  pure { operation := op, duration_ms := dur, memory_mb := mem,
         rows_processed := rows }

def parseSystemInfo (j : Json) : Option SystemInfo := do
  let os ← (← j.get "os").asStr
  let cpu ← (← j.get "cpu_count").asOptInt
  let mem ← (← j.get "total_memory_gb").asInt
  pure { os := os, cpu_count := cpu, total_memory_gb := mem }

def parseDatasetInfo (j : Json) : Option DatasetInfo := do
  let src ← (← j.get "source").asStr
  let lim ← (← j.get "rows_limit").asOptInt
  pure { source := src, rows_limit := lim }

/-- Parsing each entry of the `results` list in order; any malformed entry
fails the whole parse. -/
def parseResultsList : List Json → Option (List BenchmarkResult)
  | [] => some []
  | j :: rest => do
    let r ← parseBenchmarkResult j
    let rs ← parseResultsList rest
    pure (r :: rs)

/-- The read path for a whole persisted Result Set: `load_results` returns the
parsed document; its fields are accessed by key by the comparison and report
scripts. -/
def parseSuiteData (j : Json) : Option BenchmarkSuiteData := do
  let ts ← (← j.get "timestamp").asStr
  let resArr ← (← j.get "results").asArr
  let results ← parseResultsList resArr
  let sys ← parseSystemInfo (← j.get "system_info")
  let ds ← parseDatasetInfo (← j.get "dataset_info")
  pure { timestamp := ts, results := results, system_info := sys,
         dataset_info := ds }

/-! ## Measurement wrapper (benchmarks.py, each benchmark method) -/

/-- Memory delta `max(0, final_memory - initial_memory)`: the resident-memory delta,
floored at zero (benchmarks.py lines 72, 99, 128, 155, 178, 211). -/
def measureMemoryDelta (initialMem finalMem : Int) : Int :=
  max 0 (finalMem - initialMem)

/-- Python `int()` applied to a rational: truncation toward zero. -/
def pyIntTrunc (q : ℚ) : Int :=
  if 0 ≤ q then Int.floor q else -(Int.floor (-q))

/-- Duration `int((end_time - start_time) * 1000)`: elapsed wall-clock time in whole
milliseconds, truncated (benchmarks.py line 71 and analogues). -/
def durationMs (startT endT : ℚ) : Int :=
  pyIntTrunc ((endT - startT) * 1000)

/-- The measurement wrapper shared by every benchmark method: memory reading
before, clock reading before and after, memory reading after, then a
`BenchmarkResult` with the truncated duration and the floored memory delta. -/
def measureOperation (op : String) (startT endT : ℚ) (initialMem finalMem : Int)
    (rows : Option Int) : BenchmarkResult :=
  { operation := op
  , duration_ms := durationMs startT endT
  , memory_mb := measureMemoryDelta initialMem finalMem
  , rows_processed := rows }

/-! ## Suite runner (benchmarks.py `run_all_benchmarks`, lines 220-247) -/

/-- Embedding of `run_all_benchmarks` over an explicit suite state `σ` (the object state,
chiefly the retained `self.df`): each benchmark either succeeds with a result
and an updated state, or raises (`none`), in which case the runner prints the
error, appends nothing, and continues with the state unchanged. -/
def runAllBenchmarks {σ : Type} (benchmarks : List (σ → Option (BenchmarkResult × σ)))
    (s : σ) : List BenchmarkResult × σ :=
  match benchmarks with
  | [] => ([], s)
  | b :: rest =>
    match b s with
    | some (r, s') =>
      let (rs, sf) := runAllBenchmarks rest s'
      (r :: rs, sf)
    | none => runAllBenchmarks rest s

/-- Embedding of `benchmark_read` as a suite step: the state is `Option Frame`, the
`self.df` attribute (absent on a fresh instance). `readOutcome` is the result
of `pl.read_parquet`: `none` when the read raises. On success the produced
dataframe is stored (`self.df = df`); on failure the exception propagates
before the assignment, leaving the state untouched. -/
def benchRead {Frame : Type} (readOutcome : Option Frame)
    (mk : Frame → BenchmarkResult) :
    Option Frame → Option (BenchmarkResult × Option Frame) :=
  fun _s =>
    match readOutcome with
    | none => none
    | some df => some (mk df, some df)

/-- Any of the five later benchmark methods (`benchmark_filter`, ...,
`benchmark_complex_query`): each dereferences `self.df`; when the attribute
was never set the dereference raises, otherwise the method produces its
result and leaves the stored dataframe in place. -/
def benchOnDf {Frame : Type} (mk : Frame → BenchmarkResult) :
    Option Frame → Option (BenchmarkResult × Option Frame) :=
  fun s =>
    match s with
    | none => none
    | some df => some (mk df, some df)

/-- The fixed 6-operation suite of `run_all_benchmarks` (lines 227-234):
read first, then the five dataframe-dependent operations. -/
def pythonSuite {Frame : Type} (readOutcome : Option Frame)
    (mkRead mkFilter mkAgg mkGroup mkSort mkComplex : Frame → BenchmarkResult) :
    List (Option Frame → Option (BenchmarkResult × Option Frame)) :=
  [benchRead readOutcome mkRead, benchOnDf mkFilter, benchOnDf mkAgg,
   benchOnDf mkGroup, benchOnDf mkSort, benchOnDf mkComplex]

/-! ## Comparison engine (scripts/compare_results.py) -/

/-- One row of the comparison table (`table.add_row`, lines 61-68):
operation, both durations, the speedup cell, both memory figures. The
source formats the speedup as a string with `"N/A"` for a zero divisor;
the cell is modelled as `Option ℚ` with `none` for that sentinel. -/
structure ComparisonRow where
  operation : String
  python_ms : Int
  rust_ms : Int
  speedup : Option ℚ
  python_mb : Int
  rust_mb : Int
deriving DecidableEq, Repr

/-- Lookup `rust_lookup = {result["operation"]: result for result in
rust_data["results"]}` followed by `.get(operation)` (lines 50, 54): a dict
comprehension lets later entries overwrite earlier ones, so the lookup
returns the last record with the given operation, if any. -/
def rustLookup (rustResults : List BenchmarkResult) (op : String) :
    Option BenchmarkResult :=
  rustResults.foldl (fun acc r => if r.operation = op then some r else acc) none

/-- The speedup cell (line 59): `py_time / rust_time` when `rust_time > 0`,
else the `"N/A"` sentinel (`none`). -/
def speedupCell (pyTime rustTime : Int) : Option ℚ :=
  if 0 < rustTime then some ((pyTime : ℚ) / (rustTime : ℚ)) else none

/-- The row added for a matched pair (lines 57-68). -/
def mkComparisonRow (py rust : BenchmarkResult) : ComparisonRow :=
  { operation := py.operation
  , python_ms := py.duration_ms
  , rust_ms := rust.duration_ms
  , speedup := speedupCell py.duration_ms rust.duration_ms
  , python_mb := py.memory_mb
  , rust_mb := rust.memory_mb }

/-- The comparison loop (lines 52-68): iterate the Python results in stored
order, probe the rust lookup, and add a row only when a match exists. -/
def compareRows (pythonResults rustResults : List BenchmarkResult) :
    List ComparisonRow :=
  pythonResults.filterMap
    (fun py => (rustLookup rustResults py.operation).map (mkComparisonRow py))

/-- Total `sum(r["duration_ms"] for r in data["results"])` (lines 75-76): the
duration total of `compare_results.py`, taken over every row of one set. -/
def totalDuration (results : List BenchmarkResult) : Int :=
  (results.map (fun r => r.duration_ms)).sum

/-- Total `sum(r["memory_mb"] for r in data["results"])` (lines 83-84): the memory
total of `compare_results.py`, taken over every row of one set. -/
def totalMemory (results : List BenchmarkResult) : Int :=
  (results.map (fun r => r.memory_mb)).sum

/-- Ratio `overall_speedup = py_total / rust_total if rust_total > 0 else 0`
(line 77 of compare_results.py, line 128 of generate_report.py). -/
def overallSpeedup (pyTotal rustTotal : Int) : ℚ :=
  if 0 < rustTotal then (pyTotal : ℚ) / (rustTotal : ℚ) else 0

/-- Result-file paths checked by both scripts (relative to the project
root). -/
def pythonResultsPath : String := "results/python_results.json"

def rustResultsPath : String := "results/rust_results.json"

/-- Outcome of `compare_results()` (lines 21-87): either an early return
reporting which results file is missing, or the full comparison output
(table rows and the summary totals over all rows of each file). -/
inductive CompareOutcome where
  | missingInput (path : String)
  | output (rows : List ComparisonRow) (pyTotal rustTotal : Int)
      (overall : ℚ) (pyMemory rustMemory : Int)
deriving DecidableEq, Repr

/-- Embedding of `compare_results()`: the existence checks on the two input files
(lines 27-33), then the comparison; file existence is passed in as the
result of `Path.exists()`. -/
def compareResultsMain (pyExists rustExists : Bool)
    (pyData rustData : BenchmarkSuiteData) : CompareOutcome :=
  if pyExists = false then CompareOutcome.missingInput pythonResultsPath
  else if rustExists = false then CompareOutcome.missingInput rustResultsPath
  else
    CompareOutcome.output (compareRows pyData.results rustData.results)
      (totalDuration pyData.results) (totalDuration rustData.results)
      (overallSpeedup (totalDuration pyData.results)
        (totalDuration rustData.results))
      (totalMemory pyData.results) (totalMemory rustData.results)

/-! ## Report emission (scripts/generate_report.py) -/

/-- Python `str.title()` on the ASCII strings used here: an alphabetic
character is uppercased when it follows a non-alphabetic character (or starts
the string) and lowercased otherwise; other characters pass through. -/
def pyTitle (s : String) : String :=
  String.mk
    ((s.data.foldl
      (fun (acc : List Char × Bool) c =>
        if c.isAlpha then
          ((if acc.2 then c.toLower else c.toUpper) :: acc.1, true)
        else (c :: acc.1, false))
      ([], false)).1.reverse)

/-- Label transform `operation.replace('_', ' ').title()` (line 115):
the human-friendly operation label. -/
def operationLabel (op : String) : String :=
  pyTitle (op.replace "_" " ")

/-- One entry of the `comparisons` list built in `generate_html_report`
(lines 114-123). -/
structure ReportRow where
  operation : String
  python_time : Int
  rust_time : Int
  speedup : ℚ
  python_memory : Int
  rust_memory : Int
  python_rows : Option Int
  rust_rows : Option Int
deriving DecidableEq, Repr

/-- The speedup of `generate_html_report` (line 113): the ratio when
`rust_time > 0`, else the sentinel `0` (never a division by zero). -/
def reportSpeedup (pyTime rustTime : Int) : ℚ :=
  if 0 < rustTime then (pyTime : ℚ) / (rustTime : ℚ) else 0

/-- Loop building `comparisons` in `generate_html_report` (lines 105-123): same
alignment as `compare_results` — iterate the Python results in stored order,
probe the rust lookup, emit a row only on a match. -/
def reportComparisons (pythonResults rustResults : List BenchmarkResult) :
    List ReportRow :=
  pythonResults.filterMap
    (fun py => (rustLookup rustResults py.operation).map
      (fun rust =>
        { operation := operationLabel py.operation
        , python_time := py.duration_ms
        , rust_time := rust.duration_ms
        , speedup := reportSpeedup py.duration_ms rust.duration_ms
        , python_memory := py.memory_mb
        , rust_memory := rust.memory_mb
        , python_rows := py.rows_processed
        , rust_rows := rust.rows_processed }))

/-- Total `total_python_time = sum(c["python_time"] for c in comparisons)`
(line 126): a total over the matched rows only. -/
def reportTotalPythonTime (pythonResults rustResults : List BenchmarkResult) :
    Int :=
  ((reportComparisons pythonResults rustResults).map
    (fun c => c.python_time)).sum

/-- Total `total_rust_time = sum(c["rust_time"] for c in comparisons)`
(line 127): a total over the matched rows only. -/
def reportTotalRustTime (pythonResults rustResults : List BenchmarkResult) :
    Int :=
  ((reportComparisons pythonResults rustResults).map
    (fun c => c.rust_time)).sum

/-- Outcome of generate_report.py `main()` (lines 244-272): either an early
return naming the missing results file, or the rendered report fed by the
comparisons and the matched-row totals. -/
inductive ReportOutcome where
  | missingInput (path : String)
  | report (rows : List ReportRow) (totalPython totalRust : Int) (overall : ℚ)
deriving DecidableEq, Repr

/-- Embedding of generate_report.py `main()`: existence checks for both input files
(lines 252-258), then plot creation and HTML generation; file existence is
passed in as the result of `Path.exists()`. -/
def generateReportMain (pyExists rustExists : Bool)
    (pyData rustData : BenchmarkSuiteData) : ReportOutcome :=
  if pyExists = false then ReportOutcome.missingInput pythonResultsPath
  else if rustExists = false then ReportOutcome.missingInput rustResultsPath
  else
    ReportOutcome.report (reportComparisons pyData.results rustData.results)
      (reportTotalPythonTime pyData.results rustData.results)
      (reportTotalRustTime pyData.results rustData.results)
      (overallSpeedup (reportTotalPythonTime pyData.results rustData.results)
        (reportTotalRustTime pyData.results rustData.results))

/-- A suite step that, from any state, completes and yields a result carrying
the given operation name (the behaviour of a benchmark method that does not
raise). -/
def succeedsWithName {σ : Type} (b : σ → Option (BenchmarkResult × σ))
    (nm : String) : Prop :=
  ∀ s, ∃ r s', b s = some (r, s') ∧ r.operation = nm

/-- A suite step that raises from any state. -/
def alwaysRaises {σ : Type} (b : σ → Option (BenchmarkResult × σ)) : Prop :=
  ∀ s, b s = none

/-! ## Helper lemmas -/

theorem mkComparisonRow_operation (py rust : BenchmarkResult) :
    (mkComparisonRow py rust).operation = py.operation := rfl

theorem compareRows_cons_none (hd : BenchmarkResult)
    (tl rustRs : List BenchmarkResult)
    (hlk : rustLookup rustRs hd.operation = none) :
    compareRows (hd :: tl) rustRs = compareRows tl rustRs := by
  simp [compareRows, hlk]

theorem compareRows_cons_some (hd rust : BenchmarkResult)
    (tl rustRs : List BenchmarkResult)
    (hlk : rustLookup rustRs hd.operation = some rust) :
    compareRows (hd :: tl) rustRs =
      mkComparisonRow hd rust :: compareRows tl rustRs := by
  simp [compareRows, hlk]

theorem rustLookup_aux_isSome (rustResults : List BenchmarkResult) (op : String)
    (acc : Option BenchmarkResult) :
    (rustResults.foldl
      (fun acc r => if r.operation = op then some r else acc) acc).isSome =
      true ↔
      (∃ r ∈ rustResults, r.operation = op) ∨ acc.isSome = true := by
  induction rustResults generalizing acc with
  | nil => simp
  | cons hd tl ih =>
    by_cases h : hd.operation = op
    · simp [List.foldl_cons, h, ih]
    · simp only [List.foldl_cons, if_neg h, ih, List.mem_cons]
      constructor
      · rintro (⟨r, hr, hop⟩ | hacc)
        · exact Or.inl ⟨r, Or.inr hr, hop⟩
        · exact Or.inr hacc
      · rintro (⟨r, rfl | hr, hop⟩ | hacc)
        · exact absurd hop h
        · exact Or.inl ⟨r, hr, hop⟩
        · exact Or.inr hacc

theorem rustLookup_isSome_iff (rustResults : List BenchmarkResult)
    (op : String) :
    (rustLookup rustResults op).isSome = true ↔
      ∃ r ∈ rustResults, r.operation = op := by
  rw [rustLookup, rustLookup_aux_isSome]
  simp

theorem rustLookup_aux_no_match (rustResults : List BenchmarkResult)
    (op : String) (acc : Option BenchmarkResult)
    (h : ∀ r ∈ rustResults, r.operation ≠ op) :
    rustResults.foldl
      (fun acc r => if r.operation = op then some r else acc) acc = acc := by
  induction rustResults generalizing acc with
  | nil => rfl
  | cons hd tl ih =>
    rw [List.foldl_cons, if_neg (h hd (List.mem_cons_self hd tl))]
    exact ih acc fun r hr => h r (List.mem_cons_of_mem hd hr)

theorem rustLookup_last (c₁ c₂ : List BenchmarkResult) (r : BenchmarkResult)
    (op : String) (hr : r.operation = op)
    (hafter : ∀ rr ∈ c₂, rr.operation ≠ op) :
    rustLookup (c₁ ++ r :: c₂) op = some r := by
  rw [rustLookup, List.foldl_append, List.foldl_cons, if_pos hr]
  exact rustLookup_aux_no_match c₂ op (some r) hafter

/-! ## Claims about the comparison alignment -/

/-- C2: a ComparisonRow is produced for operation X if and only if a record
with operation X appears in both Result Sets' results; operations present in
only one set are silently excluded (the comparison is a total function — no
error path exists). -/
theorem comparison_row_iff_matched (pyRs rustRs : List BenchmarkResult)
    (op : String) :
    (∃ row ∈ compareRows pyRs rustRs, row.operation = op) ↔
      (∃ r ∈ pyRs, r.operation = op) ∧ (∃ r ∈ rustRs, r.operation = op) := by
  constructor
  · rintro ⟨row, hrow, hop⟩
    rw [compareRows, List.mem_filterMap] at hrow
    obtain ⟨py, hpy, hmap⟩ := hrow
    cases hlk : rustLookup rustRs py.operation with
    | none => rw [hlk] at hmap; simp at hmap
    | some rust =>
      rw [hlk] at hmap
      simp at hmap
      have hpyop : py.operation = op := by
        rw [← hop, ← hmap]
        rfl
      refine ⟨⟨py, hpy, hpyop⟩, ?_⟩
      have : (rustLookup rustRs op).isSome = true := by
        rw [← hpyop, hlk]
        rfl
      exact (rustLookup_isSome_iff rustRs op).mp this
  · rintro ⟨⟨py, hpy, hpyop⟩, hrust⟩
    have hsome : (rustLookup rustRs py.operation).isSome = true := by
      rw [hpyop]
      exact (rustLookup_isSome_iff rustRs op).mpr hrust
    obtain ⟨rust, hlk⟩ := Option.isSome_iff_exists.mp hsome
    refine ⟨mkComparisonRow py rust, ?_, hpyop⟩
    rw [compareRows, List.mem_filterMap]
    exact ⟨py, hpy, by rw [hlk]; rfl⟩

/-- C7: the ComparisonRows are emitted in the baseline set's stored order —
the output operations are exactly the baseline operations that have a match,
in baseline order, and they form a sublist of the baseline's operation
sequence. -/
theorem comparison_order_is_baseline_order (pyRs rustRs : List BenchmarkResult) :
    (compareRows pyRs rustRs).map (fun row => row.operation) =
      (pyRs.filter
        (fun py => (rustLookup rustRs py.operation).isSome)).map
        (fun py => py.operation) ∧
    List.Sublist
      ((compareRows pyRs rustRs).map (fun row => row.operation))
      (pyRs.map (fun py => py.operation)) := by
  have hmain : ∀ l : List BenchmarkResult,
      (compareRows l rustRs).map (fun row => row.operation) =
        (l.filter (fun py => (rustLookup rustRs py.operation).isSome)).map
          (fun py => py.operation) := by
    intro l
    induction l with
    | nil => rfl
    | cons hd tl ih =>
      cases hlk : rustLookup rustRs hd.operation with
      | none =>
        rw [compareRows_cons_none hd tl rustRs hlk,
          List.filter_cons_of_neg (by simp [hlk])]
        exact ih
      | some rust =>
        rw [compareRows_cons_some hd rust tl rustRs hlk,
          List.filter_cons_of_pos (by simp [hlk]), List.map_cons,
          List.map_cons, mkComparisonRow_operation, ih]
  refine ⟨hmain pyRs, ?_⟩
  rw [hmain pyRs]
  exact List.Sublist.map (fun py => py.operation) (List.filter_sublist pyRs)

/-- C9: when the candidate set holds several records with the same operation,
the dict-comprehension lookup keeps the last one in stored order, every
matching baseline record is compared against that last duplicate, and each
baseline duplicate emits its own row. -/
theorem duplicate_candidate_last_wins (pyRs c₁ c₂ : List BenchmarkResult)
    (r : BenchmarkResult) (op : String) (hr : r.operation = op)
    (hafter : ∀ rr ∈ c₂, rr.operation ≠ op) :
    rustLookup (c₁ ++ r :: c₂) op = some r ∧
    (compareRows pyRs (c₁ ++ r :: c₂)).filter
        (fun row => row.operation = op) =
      (pyRs.filter (fun py => py.operation = op)).map
        (fun py => mkComparisonRow py r) := by
  have hlast := rustLookup_last c₁ c₂ r op hr hafter
  refine ⟨hlast, ?_⟩
  induction pyRs with
  | nil => rfl
  | cons hd tl ih =>
    by_cases h : hd.operation = op
    · have hlk : rustLookup (c₁ ++ r :: c₂) hd.operation = some r := by
        rw [h]; exact hlast
      rw [compareRows_cons_some hd r tl _ hlk,
        List.filter_cons_of_pos (by simp [mkComparisonRow_operation, h]),
        List.filter_cons_of_pos (by simp [h]), List.map_cons, ih]
    · cases hlk : rustLookup (c₁ ++ r :: c₂) hd.operation with
      | none =>
        rw [compareRows_cons_none hd tl _ hlk,
          List.filter_cons_of_neg (by simp [h])]
        exact ih
      | some rust =>
        rw [compareRows_cons_some hd rust tl _ hlk,
          List.filter_cons_of_neg (by simp [mkComparisonRow_operation, h]),
          List.filter_cons_of_neg (by simp [h])]
        exact ih

/-- Witness for C9 at concrete inputs: two candidate records named
`"filter"` — the lookup returns the second; two baseline records named
`"filter"` — each emits its own row against that second record. -/
theorem duplicate_candidate_last_wins_witness :
    rustLookup [⟨"filter", 30, 1, none⟩, ⟨"filter", 20, 2, none⟩] "filter" =
      some ⟨"filter", 20, 2, none⟩ ∧
    (compareRows [⟨"filter", 100, 10, none⟩, ⟨"filter", 50, 5, none⟩]
        [⟨"filter", 30, 1, none⟩, ⟨"filter", 20, 2, none⟩]).filter
        (fun row => row.operation = "filter") =
      [mkComparisonRow ⟨"filter", 100, 10, none⟩ ⟨"filter", 20, 2, none⟩,
       mkComparisonRow ⟨"filter", 50, 5, none⟩ ⟨"filter", 20, 2, none⟩] := by
  have h := duplicate_candidate_last_wins
    [⟨"filter", 100, 10, none⟩, ⟨"filter", 50, 5, none⟩]
    [⟨"filter", 30, 1, none⟩] [] ⟨"filter", 20, 2, none⟩ "filter" rfl
    (by simp)
  exact ⟨h.1, h.2.trans rfl⟩

/-! ## Persistence round trip -/

theorem parseBenchmarkResult_toDict (r : BenchmarkResult) :
    parseBenchmarkResult r.toDict = some r := by
  cases r with
  | mk op dur mem rows => cases rows <;> rfl

theorem parseResultsList_toDict (l : List BenchmarkResult) :
    parseResultsList (l.map BenchmarkResult.toDict) = some l := by
  induction l with
  | nil => rfl
  | cons hd tl ih =>
    simp [parseResultsList, parseBenchmarkResult_toDict, ih]

theorem parseSystemInfo_toJson (s : SystemInfo) :
    parseSystemInfo s.toJson = some s := by
  cases s with
  | mk os cpu mem => cases cpu <;> rfl

theorem parseDatasetInfo_toJson (d : DatasetInfo) :
    parseDatasetInfo d.toJson = some d := by
  cases d with
  | mk src lim => cases lim <;> rfl

theorem parseSuiteData_save_unfold (d : BenchmarkSuiteData) :
    parseSuiteData (saveResultsJson d) =
      (parseResultsList (d.results.map BenchmarkResult.toDict)).bind
        (fun rs =>
          (parseSystemInfo d.system_info.toJson).bind
            (fun sys =>
              (parseDatasetInfo d.dataset_info.toJson).bind
                (fun ds =>
                  some { timestamp := d.timestamp, results := rs,
                         system_info := sys, dataset_info := ds }))) := rfl

/-- C5: serializing a Result Set along the persistence write path and parsing
the serialized form back yields an equal value in every field — operation,
duration_ms, memory_mb, rows_processed, timestamp, system_info and
dataset_info — and an absent rows_processed is serialized as the explicit
JSON null marker and parsed back as absent, never as zero. -/
theorem save_load_round_trip (d : BenchmarkSuiteData) (r : BenchmarkResult) :
    parseSuiteData (saveResultsJson d) = some d ∧
    Json.get (BenchmarkResult.toDict { r with rows_processed := none })
      "rows_processed" = some Json.null ∧
    (parseBenchmarkResult (BenchmarkResult.toDict
        { r with rows_processed := none })).map
      (fun x => x.rows_processed) = some none := by
  refine ⟨?_, rfl, ?_⟩
  · rw [parseSuiteData_save_unfold]
    simp [parseResultsList_toDict, parseSystemInfo_toJson,
      parseDatasetInfo_toJson]
  · rw [parseBenchmarkResult_toDict]
    rfl

/-! ## Aggregate totals (C1) -/

theorem reportComparisons_cons_none (hd : BenchmarkResult)
    (tl rustRs : List BenchmarkResult)
    (hlk : rustLookup rustRs hd.operation = none) :
    reportComparisons (hd :: tl) rustRs = reportComparisons tl rustRs := by
  simp [reportComparisons, hlk]

theorem reportComparisons_cons_some (hd rust : BenchmarkResult)
    (tl rustRs : List BenchmarkResult)
    (hlk : rustLookup rustRs hd.operation = some rust) :
    reportComparisons (hd :: tl) rustRs =
      { operation := operationLabel hd.operation
      , python_time := hd.duration_ms
      , rust_time := rust.duration_ms
      , speedup := reportSpeedup hd.duration_ms rust.duration_ms
      , python_memory := hd.memory_mb
      , rust_memory := rust.memory_mb
      , python_rows := hd.rows_processed
      , rust_rows := rust.rows_processed } :: reportComparisons tl rustRs := by
  simp [reportComparisons, hlk]

theorem sum_map_filter_split (l : List BenchmarkResult)
    (p : BenchmarkResult → Bool) (f : BenchmarkResult → Int) :
    (l.map f).sum =
      ((l.filter p).map f).sum + ((l.filter (fun x => !(p x))).map f).sum := by
  induction l with
  | nil => rfl
  | cons hd tl ih =>
    by_cases h : p hd = true
    · simp [List.filter_cons, h, ih]
      omega
    · simp [List.filter_cons, h, ih]
      omega

theorem report_total_python_matched (pyRs rustRs : List BenchmarkResult) :
    reportTotalPythonTime pyRs rustRs =
      ((pyRs.filter (fun py => (rustLookup rustRs py.operation).isSome)).map
        (fun py => py.duration_ms)).sum := by
  induction pyRs with
  | nil => rfl
  | cons hd tl ih =>
    rw [reportTotalPythonTime] at ih ⊢
    cases hlk : rustLookup rustRs hd.operation with
    | none =>
      rw [reportComparisons_cons_none hd tl rustRs hlk,
        List.filter_cons_of_neg (by simp [hlk])]
      exact ih
    | some rust =>
      rw [reportComparisons_cons_some hd rust tl rustRs hlk,
        List.filter_cons_of_pos (by simp [hlk]), List.map_cons,
        List.map_cons, List.sum_cons, List.sum_cons, ih]

theorem report_total_rust_matched (pyRs rustRs : List BenchmarkResult) :
    reportTotalRustTime pyRs rustRs =
      ((compareRows pyRs rustRs).map (fun row => row.rust_ms)).sum := by
  induction pyRs with
  | nil => rfl
  | cons hd tl ih =>
    rw [reportTotalRustTime] at ih ⊢
    cases hlk : rustLookup rustRs hd.operation with
    | none =>
      rw [reportComparisons_cons_none hd tl rustRs hlk,
        compareRows_cons_none hd tl rustRs hlk]
      exact ih
    | some rust =>
      rw [reportComparisons_cons_some hd rust tl rustRs hlk,
        compareRows_cons_some hd rust tl rustRs hlk, List.map_cons,
        List.map_cons, List.sum_cons, List.sum_cons, ih]
      rfl

/-- C1 (amended): only generate_report.py computes its aggregate totals over
the matched rows; compare_results.py computes its duration and memory totals
over every row of the respective Result Set (matched and unmatched alike),
and its overall speedup from those full totals. -/
theorem aggregate_totals_amended (pyRs rustRs : List BenchmarkResult) :
    reportTotalPythonTime pyRs rustRs =
      ((pyRs.filter (fun py => (rustLookup rustRs py.operation).isSome)).map
        (fun py => py.duration_ms)).sum ∧
    reportTotalRustTime pyRs rustRs =
      ((compareRows pyRs rustRs).map (fun row => row.rust_ms)).sum ∧
    totalDuration pyRs =
      ((pyRs.filter (fun py => (rustLookup rustRs py.operation).isSome)).map
        (fun py => py.duration_ms)).sum +
      ((pyRs.filter (fun py => !(rustLookup rustRs py.operation).isSome)).map
        (fun py => py.duration_ms)).sum ∧
    totalMemory pyRs =
      ((pyRs.filter (fun py => (rustLookup rustRs py.operation).isSome)).map
        (fun py => py.memory_mb)).sum +
      ((pyRs.filter (fun py => !(rustLookup rustRs py.operation).isSome)).map
        (fun py => py.memory_mb)).sum :=
  ⟨report_total_python_matched pyRs rustRs,
   report_total_rust_matched pyRs rustRs,
   sum_map_filter_split pyRs _ _,
   sum_map_filter_split pyRs _ _⟩

/-- C1 counterexample: on the spec's own scenario (baseline rows "filter"
100ms and "sort" 50ms, candidate row "filter" 20ms) the compare_results.py
baseline total is 150, not the matched-only 100, and the overall speedup is
15/2 = 7.5, not 5. -/
theorem aggregate_totals_counterexample :
    totalDuration [⟨"filter", 100, 10, none⟩, ⟨"sort", 50, 5, none⟩] = 150 ∧
    ((compareRows [⟨"filter", 100, 10, none⟩, ⟨"sort", 50, 5, none⟩]
        [⟨"filter", 20, 8, none⟩]).map (fun row => row.python_ms)).sum = 100 ∧
    totalDuration [⟨"filter", 100, 10, none⟩, ⟨"sort", 50, 5, none⟩] ≠
      ((compareRows [⟨"filter", 100, 10, none⟩, ⟨"sort", 50, 5, none⟩]
          [⟨"filter", 20, 8, none⟩]).map (fun row => row.python_ms)).sum ∧
    overallSpeedup
        (totalDuration [⟨"filter", 100, 10, none⟩, ⟨"sort", 50, 5, none⟩])
        (totalDuration [⟨"filter", 20, 8, none⟩]) = 15 / 2 ∧
    (15 : ℚ) / 2 ≠ 5 := by
  refine ⟨rfl, rfl, by decide, ?_, by norm_num⟩
  norm_num [overallSpeedup, totalDuration]

/-! ## Numeric edge cases (C3) and measurement clamping (C6) -/

/-- C3: a candidate duration of exactly zero yields the sentinel speedup in
both scripts ("N/A", modelled as `none`, in compare_results.py and `0` in
generate_report.py) with no division performed; a positive candidate duration
yields exactly baseline/candidate. -/
theorem zero_divisor_sentinel (pyTime rustTime : Int) :
    (rustTime = 0 →
      speedupCell pyTime rustTime = none ∧
      reportSpeedup pyTime rustTime = 0) ∧
    (0 < rustTime →
      speedupCell pyTime rustTime =
        some ((pyTime : ℚ) / (rustTime : ℚ)) ∧
      reportSpeedup pyTime rustTime = (pyTime : ℚ) / (rustTime : ℚ)) := by
  constructor
  · intro h
    subst h
    simp [speedupCell, reportSpeedup]
  · intro h
    simp [speedupCell, reportSpeedup, h]

/-- Witness for C3 at concrete durations 100 and 0 (and 100 and 20). -/
theorem zero_divisor_sentinel_witness :
    speedupCell 100 0 = none ∧ reportSpeedup 100 0 = 0 ∧
    speedupCell 100 20 = some (((100 : Int) : ℚ) / ((20 : Int) : ℚ)) :=
  ⟨((zero_divisor_sentinel 100 0).1 rfl).1,
   ((zero_divisor_sentinel 100 0).1 rfl).2,
   ((zero_divisor_sentinel 100 20).2 (by norm_num)).1⟩

/-- C6: the recorded memory_mb is `max 0 (after - before)`; a lower reading
after the operation yields 0; and with a monotonic clock (start ≤ end) no
result carries a negative memory_mb or duration_ms. -/
theorem measured_memory_clamped (op : String) (startT endT : ℚ)
    (initialMem finalMem : Int) (rows : Option Int)
    (hclock : startT ≤ endT) :
    (measureOperation op startT endT initialMem finalMem rows).memory_mb =
      max 0 (finalMem - initialMem) ∧
    (finalMem < initialMem →
      (measureOperation op startT endT initialMem finalMem rows).memory_mb
        = 0) ∧
    0 ≤ (measureOperation op startT endT initialMem finalMem rows).memory_mb ∧
    0 ≤ (measureOperation op startT endT initialMem finalMem
      rows).duration_ms := by
  refine ⟨rfl, ?_, ?_, ?_⟩
  · intro h
    show max 0 (finalMem - initialMem) = 0
    omega
  · show (0 : Int) ≤ max 0 (finalMem - initialMem)
    exact le_max_left 0 _
  · show (0 : Int) ≤ durationMs startT endT
    rw [durationMs, pyIntTrunc]
    have hq : (0 : ℚ) ≤ (endT - startT) * 1000 := by
      have h1 : (0 : ℚ) ≤ endT - startT := by linarith
      have h2 : (0 : ℚ) ≤ 1000 := by norm_num
      exact mul_nonneg h1 h2
    rw [if_pos hq]
    exact Int.floor_nonneg.mpr hq

/-- Witness for C6: a run from clock 0 to 3/2 whose memory reading drops
from 100 to 90 records memory_mb = 0 and a non-negative duration. -/
theorem measured_memory_clamped_witness :
    (measureOperation "read_parquet" 0 (3 / 2) 100 90 none).memory_mb = 0 ∧
    0 ≤ (measureOperation "read_parquet" 0 (3 / 2) 100 90 none).duration_ms := by
  have h := measured_memory_clamped "read_parquet" 0 (3 / 2) 100 90 none
    (by norm_num)
  exact ⟨h.2.1 (by norm_num), h.2.2.2⟩

/-! ## Missing inputs (C8) -/

/-- C8: when either persisted Result Set file is absent, both
compare_results.py and generate_report.py report the file that is actually
missing — the Python path when the Python results file is absent, the Rust
path when only the Rust results file is absent — and return without
producing any comparison output or report. -/
theorem missing_input_reported (pyExists rustExists : Bool)
    (pyData rustData : BenchmarkSuiteData)
    (h : pyExists = false ∨ rustExists = false) :
    (pyExists = false →
      compareResultsMain pyExists rustExists pyData rustData =
        CompareOutcome.missingInput pythonResultsPath ∧
      generateReportMain pyExists rustExists pyData rustData =
        ReportOutcome.missingInput pythonResultsPath) ∧
    (pyExists = true → rustExists = false →
      compareResultsMain pyExists rustExists pyData rustData =
        CompareOutcome.missingInput rustResultsPath ∧
      generateReportMain pyExists rustExists pyData rustData =
        ReportOutcome.missingInput rustResultsPath) ∧
    (∀ rows pyT rustT overall pyM rustM,
      compareResultsMain pyExists rustExists pyData rustData ≠
        CompareOutcome.output rows pyT rustT overall pyM rustM) ∧
    (∀ rows totalPy totalRust overall,
      generateReportMain pyExists rustExists pyData rustData ≠
        ReportOutcome.report rows totalPy totalRust overall) := by
  cases pyExists <;> cases rustExists <;>
    simp [compareResultsMain, generateReportMain] at h ⊢

/-- Witness for C8: with the Python results file missing both scripts name
the Python path; with only the Rust results file missing both name the Rust
path. -/
theorem missing_input_reported_witness :
    compareResultsMain false true
        ⟨"t", [], ⟨"linux", some 8, 16⟩, ⟨"s", none⟩⟩
        ⟨"t", [], ⟨"linux", some 8, 16⟩, ⟨"s", none⟩⟩ =
      CompareOutcome.missingInput pythonResultsPath ∧
    generateReportMain false true
        ⟨"t", [], ⟨"linux", some 8, 16⟩, ⟨"s", none⟩⟩
        ⟨"t", [], ⟨"linux", some 8, 16⟩, ⟨"s", none⟩⟩ =
      ReportOutcome.missingInput pythonResultsPath ∧
    compareResultsMain true false
        ⟨"t", [], ⟨"linux", some 8, 16⟩, ⟨"s", none⟩⟩
        ⟨"t", [], ⟨"linux", some 8, 16⟩, ⟨"s", none⟩⟩ =
      CompareOutcome.missingInput rustResultsPath ∧
    generateReportMain true false
        ⟨"t", [], ⟨"linux", some 8, 16⟩, ⟨"s", none⟩⟩
        ⟨"t", [], ⟨"linux", some 8, 16⟩, ⟨"s", none⟩⟩ =
      ReportOutcome.missingInput rustResultsPath :=
  ⟨((missing_input_reported false true _ _ (Or.inl rfl)).1 rfl).1,
   ((missing_input_reported false true _ _ (Or.inl rfl)).1 rfl).2,
   ((missing_input_reported true false _ _ (Or.inr rfl)).2.1 rfl rfl).1,
   ((missing_input_reported true false _ _ (Or.inr rfl)).2.1 rfl rfl).2⟩

/-! ## Suite runner failure isolation (C4, C10) -/

/-- C4: in a 6-operation suite where exactly the third operation raises and
the rest complete, the resulting Result Set lists the five successful
results in their original relative order — 5 entries, none for the failed
operation, and the operations after the failure still ran. -/
theorem suite_failure_isolated {σ : Type}
    (b0 b1 b2 b3 b4 b5 : σ → Option (BenchmarkResult × σ))
    (n0 n1 n3 n4 n5 : String) (s : σ)
    (h0 : succeedsWithName b0 n0) (h1 : succeedsWithName b1 n1)
    (h2 : alwaysRaises b2) (h3 : succeedsWithName b3 n3)
    (h4 : succeedsWithName b4 n4) (h5 : succeedsWithName b5 n5) :
    ((runAllBenchmarks [b0, b1, b2, b3, b4, b5] s).1).map
      (fun r => r.operation) = [n0, n1, n3, n4, n5] ∧
    ((runAllBenchmarks [b0, b1, b2, b3, b4, b5] s).1).length = 5 := by
  obtain ⟨r0, s0, e0, ho0⟩ := h0 s
  obtain ⟨r1, s1, e1, ho1⟩ := h1 s0
  have e2 := h2 s1
  obtain ⟨r3, s3, e3, ho3⟩ := h3 s1
  obtain ⟨r4, s4, e4, ho4⟩ := h4 s3
  obtain ⟨r5, s5, e5, ho5⟩ := h5 s4
  simp [runAllBenchmarks, e0, e1, e2, e3, e4, e5, ho0, ho1, ho3, ho4, ho5]

/-- Witness for C4: a concrete stateless 6-step suite whose third step
raises produces exactly the other five results in order. -/
theorem suite_failure_isolated_witness :
    ((runAllBenchmarks (σ := Unit)
        [fun _ => some (⟨"read_parquet", 1, 1, none⟩, ()),
         fun _ => some (⟨"filter", 1, 1, none⟩, ()),
         fun _ => none,
         fun _ => some (⟨"group_by", 1, 1, none⟩, ()),
         fun _ => some (⟨"sort", 1, 1, none⟩, ()),
         fun _ => some (⟨"complex_query", 1, 1, none⟩, ())] ()).1).map
      (fun r => r.operation) =
      ["read_parquet", "filter", "group_by", "sort", "complex_query"] :=
  (suite_failure_isolated
    (fun _ => some (⟨"read_parquet", 1, 1, none⟩, ()))
    (fun _ => some (⟨"filter", 1, 1, none⟩, ()))
    (fun _ => none)
    (fun _ => some (⟨"group_by", 1, 1, none⟩, ()))
    (fun _ => some (⟨"sort", 1, 1, none⟩, ()))
    (fun _ => some (⟨"complex_query", 1, 1, none⟩, ()))
    "read_parquet" "filter" "group_by" "sort" "complex_query" ()
    (fun _ => ⟨⟨"read_parquet", 1, 1, none⟩, (), rfl, rfl⟩)
    (fun _ => ⟨⟨"filter", 1, 1, none⟩, (), rfl, rfl⟩)
    (fun _ => rfl)
    (fun _ => ⟨⟨"group_by", 1, 1, none⟩, (), rfl, rfl⟩)
    (fun _ => ⟨⟨"sort", 1, 1, none⟩, (), rfl, rfl⟩)
    (fun _ => ⟨⟨"complex_query", 1, 1, none⟩, (), rfl, rfl⟩)).1

/-- C10: on a fresh suite whose initial read raises, the retained dataframe
attribute is never set, every one of the five subsequent operations raises in
turn, and the returned results list is empty. -/
theorem read_failure_empty_results (Frame : Type)
    (mkRead mkFilter mkAgg mkGroup mkSort mkComplex :
      Frame → BenchmarkResult) :
    runAllBenchmarks
        (pythonSuite (none : Option Frame) mkRead mkFilter mkAgg mkGroup
          mkSort mkComplex) none = ([], none) ∧
    benchRead (none : Option Frame) mkRead none = none ∧
    benchOnDf mkFilter (none : Option Frame) = none ∧
    benchOnDf mkAgg (none : Option Frame) = none ∧
    benchOnDf mkGroup (none : Option Frame) = none ∧
    benchOnDf mkSort (none : Option Frame) = none ∧
    benchOnDf mkComplex (none : Option Frame) = none :=
  ⟨rfl, rfl, rfl, rfl, rfl, rfl, rfl⟩

end PolarsBench
